import Mathlib

/-!
Verification of the run-scoped archiving controller of
`trace-archiver-hdf5` (src/trace-archiver-hdf5/src/control.rs).

The consume loop `run` and the helper `generate_filename` are embedded
shallowly.  External collaborators (the Kafka consumer, the flatbuffer
decoders, the HDF5 `TraceFile` sink, the metrics exporter) appear as:

* a `Message` record carrying topic / optional payload / timestamp / offset,
  where the payload is abstracted to its flatbuffer file identifier (`Tag`)
  plus a flag saying whether `root_as_digitizer_analog_trace_message`
  succeeds on it;
* a per-message `SinkBehavior` oracle recording whether `TraceFile::create`
  and `TraceFile::push` would succeed on that iteration;
* an explicit `events` trace of the counter increments and the offset
  commit performed during one loop iteration.

`TraceFile::create` in the source is followed by `?`, so its failure
propagates out of `run`; this is modelled by the `fatal` flag, which stops
`runLoop` from consuming further messages.
-/

set_option autoImplicit false

/-- Flatbuffer file identifier of a payload, as tested by
`digitizer_analog_trace_message_buffer_has_identifier`,
`run_start_buffer_has_identifier` and `run_stop_buffer_has_identifier`.
A flatbuffer carries at most one identifier, so the checks are exclusive. -/
inductive Tag where
  | traceTag
  | runStartTag
  | runStopTag
  | otherTag
deriving DecidableEq, Repr

/-- A received payload: its identifier, and whether
`root_as_digitizer_analog_trace_message` would parse it (only consulted on
the trace-identifier branch). -/
structure Payload where
  tag : Tag
  parseOk : Bool
deriving DecidableEq, Repr

/-- Modelled from rdkafka `Timestamp`: not available, create time, or
log-append time. -/
inductive Timestamp where
  | notAvailable
  | createTime (ms : Int)
  | logAppendTime (ms : Int)
deriving DecidableEq, Repr

/-- Modelled from rdkafka `Timestamp::to_millis`: `None` for
`NotAvailable` and for the sentinel value `-1`, otherwise the stored
millisecond count. -/
def Timestamp.to_millis : Timestamp → Option Int
  | .notAvailable => none
  | .createTime ms => if ms = -1 then none else some ms
  | .logAppendTime ms => if ms = -1 then none else some ms

/-- Modelled from chrono `DateTime<Utc>`: a calendar instant, internally a
count of milliseconds from the Unix epoch (sub-millisecond precision is
irrelevant here since the code builds it with `from_timestamp_millis`). -/
structure DateTime where
  millis : Int
deriving DecidableEq, Repr

/-- Modelled from chrono `DateTime::<Utc>::from_timestamp_millis`: `Some`
exactly when the millisecond count lies in the representable range of
`NaiveDateTime` (about ±262 000 years from the common era), `None`
otherwise.  The two bounds are the millisecond timestamps of
`NaiveDateTime::MIN` and `NaiveDateTime::MAX`. -/
def fromTimestampMillis (ms : Int) : Option DateTime :=
  if -8334601228800000 ≤ ms ∧ ms ≤ 8210266876799999 then some ⟨ms⟩ else none

/-- The `PathBuf` built by `generate_filename`: the string
`format!("{:?}.h5", timestamp)`.  The Debug rendering of a
`DateTime<Utc>` is determined by (and determines) the instant, so the path
is modelled by the instant it renders. -/
structure PathBuf where
  instant : DateTime
deriving DecidableEq, Repr

/-- `generate_filename` from control.rs: convert the Kafka timestamp to
milliseconds, then to a calendar instant, and render it as `<instant>.h5`;
any failed conversion falls through to the error value. -/
def generate_filename (timestamp : Timestamp) : Except String PathBuf :=
  match timestamp.to_millis with
  | some ms =>
    match fromTimestampMillis ms with
    | some dt => Except.ok ⟨dt⟩
    | none => Except.error "Failed to convert timestamp to milliseconds"
  | none => Except.error "Failed to convert timestamp to milliseconds"

/-- `Result::is_ok` on the model of `generate_filename`. -/
def isOk {ε α : Type} : Except ε α → Bool
  | .ok _ => true
  | .error _ => false

/-- One received Kafka message, restricted to the fields the loop body
reads: topic, optional payload, timestamp, offset. -/
structure Message where
  topic : String
  payload : Option Payload
  timestamp : Timestamp
  offset : Int
deriving DecidableEq, Repr

/-- Per-message oracle for the external sink: whether `TraceFile::create`
and `TraceFile::push` would succeed during this loop iteration. -/
structure SinkBehavior where
  createOk : Bool
  pushOk : Bool
deriving DecidableEq, Repr

/-- The session-scoped sink handle held in the loop variable
`file : Option<TraceFile>`.  It records the generated artifact name and
the digitizer count fixed at creation. -/
structure TraceFile where
  filename : PathBuf
  digitizerCount : Nat
deriving DecidableEq, Repr

/-- The configuration the loop body consults: the control topic name and
the digitizer count passed to `TraceFile::create`. -/
structure Env where
  controlTopic : String
  digitizerCount : Nat
deriving DecidableEq, Repr

/-- Labels of the `MESSAGES_RECEIVED` counter used by control.rs
(`MessageKind::Trace`, `MessageKind::Unknown`). -/
inductive MessageKind where
  | trace
  | unknown
deriving DecidableEq, Repr

/-- Labels of the `FAILURES` counter used by control.rs
(`FailureKind::FileWriteFailed`, `FailureKind::UnableToDecodeMessage`). -/
inductive FailureKind where
  | fileWriteFailed
  | unableToDecodeMessage
deriving DecidableEq, Repr

/-- Observable side effects of one loop iteration, in program order:
counter increments and the offset commit. -/
inductive Event where
  | messagesReceived (k : MessageKind)
  | failures (k : FailureKind)
  | commit (offset : Int)
deriving DecidableEq, Repr

/-- Is this event a counter increment (as opposed to the offset commit)? -/
def Event.isMetric : Event → Bool
  | .messagesReceived _ => true
  | .failures _ => true
  | .commit _ => false

/-- Is this event a `FAILURES` counter increment? -/
def Event.isFailure : Event → Bool
  | .failures _ => true
  | _ => false

/-- Is this event the offset commit? -/
def Event.isCommit : Event → Bool
  | .commit _ => true
  | _ => false

/-- The counter increments among an iteration's events. -/
def metricEvents (es : List Event) : List Event := es.filter Event.isMetric

/-- The offsets committed among an iteration's events. -/
def commitEvents (es : List Event) : List Event := es.filter Event.isCommit

/-- Result of one iteration of the consume loop body on one received
message: the new `file` state, the emitted events in order, whether the
iteration propagated an error out of `run` (the `?` after
`TraceFile::create`), and how many times `TraceFile::push` was called. -/
structure StepResult where
  file : Option TraceFile
  events : List Event
  fatal : Bool
  appendAttempts : Nat
deriving DecidableEq, Repr

/-- The body of `loop { match consumer.recv().await { Ok(msg) => ... } }`
in control.rs lines 82–160, for one received message.

Branch structure, in source order:
* no payload: nothing but the commit;
* payload has the trace identifier: parse; on success count a received
  trace and, if a file is open, push (counting a file-write failure if the
  push fails); on parse failure count a decode failure;
* else if the topic is the control topic: run-start identifier opens a
  file when none is open (name-derivation failure counts a file-write
  failure; `TraceFile::create` failure propagates via `?`, so no commit);
  run-stop identifier drops the file; any other identifier only logs;
* else: count a received unknown message.

`commit_message` runs after the whole if-block, on every non-fatal path. -/
def processMessage (env : Env) (sb : SinkBehavior) (file : Option TraceFile)
    (msg : Message) : StepResult :=
  match msg.payload with
  | none =>
    { file := file, events := [.commit msg.offset], fatal := false, appendAttempts := 0 }
  | some payload =>
    if payload.tag = Tag.traceTag then
      if payload.parseOk then
        match file with
        | some f =>
          if sb.pushOk then
            { file := some f
              events := [.messagesReceived .trace, .commit msg.offset]
              fatal := false, appendAttempts := 1 }
          else
            { file := some f
              events := [.messagesReceived .trace, .failures .fileWriteFailed,
                         .commit msg.offset]
              fatal := false, appendAttempts := 1 }
        | none =>
          { file := none
            events := [.messagesReceived .trace, .commit msg.offset]
            fatal := false, appendAttempts := 0 }
      else
        { file := file
          events := [.failures .unableToDecodeMessage, .commit msg.offset]
          fatal := false, appendAttempts := 0 }
    else if msg.topic = env.controlTopic then
      if payload.tag = Tag.runStartTag then
        match file with
        | none =>
          match generate_filename msg.timestamp with
          | .ok filename =>
            if sb.createOk then
              { file := some ⟨filename, env.digitizerCount⟩
                events := [.commit msg.offset]
                fatal := false, appendAttempts := 0 }
            else
              { file := none, events := [], fatal := true, appendAttempts := 0 }
          | .error _ =>
            { file := none
              events := [.failures .fileWriteFailed, .commit msg.offset]
              fatal := false, appendAttempts := 0 }
        | some f =>
          { file := some f, events := [.commit msg.offset]
            fatal := false, appendAttempts := 0 }
      else if payload.tag = Tag.runStopTag then
        { file := none, events := [.commit msg.offset]
          fatal := false, appendAttempts := 0 }
      else
        { file := file, events := [.commit msg.offset]
          fatal := false, appendAttempts := 0 }
    else
      { file := file
        events := [.messagesReceived .unknown, .commit msg.offset]
        fatal := false, appendAttempts := 0 }

/-- The semantic kinds of the spec's classifier (§4.1), read off the same
branch structure as `processMessage`. -/
inductive Classified where
  | traceFrame
  | decodeFailed
  | runStart
  | runStop
  | unrecognized
  | unexpected
deriving DecidableEq, Repr

/-- The classifier of spec §4.1, extracted from the branch structure of
control.rs lines 83–157: trace-identifier check first, control-topic
comparison only afterwards. -/
def classify (env : Env) (topic : String) (payload : Payload) : Classified :=
  if payload.tag = Tag.traceTag then
    if payload.parseOk then Classified.traceFrame else Classified.decodeFailed
  else if topic = env.controlTopic then
    if payload.tag = Tag.runStartTag then Classified.runStart
    else if payload.tag = Tag.runStopTag then Classified.runStop
    else Classified.unrecognized
  else
    Classified.unexpected

/-- One loop iteration's input: the received message together with the
sink oracle for that iteration. -/
structure Step where
  msg : Message
  sink : SinkBehavior
deriving DecidableEq, Repr

/-- Accumulated state of the consume loop: the `file` loop variable, the
events emitted so far, and whether an iteration has propagated an error
out of `run` (after which no further message is consumed). -/
structure LoopState where
  file : Option TraceFile
  events : List Event
  fatal : Bool
deriving DecidableEq, Repr

/-- Loop state at entry: `let mut file: Option<TraceFile> = None`. -/
def initState : LoopState := { file := none, events := [], fatal := false }

/-- The consume loop of `run`, folded over a finite prefix of the message
stream.  A fatal iteration (a `TraceFile::create` failure, whose error the
`?` propagates out of `run`) stops consumption. -/
def runLoop (env : Env) : LoopState → List Step → LoopState
  | st, [] => st
  | st, s :: rest =>
    if st.fatal then st
    else
      let r := processMessage env s.sink st.file s.msg
      runLoop env { file := r.file, events := st.events ++ r.events, fatal := r.fatal } rest

/-- Does this message classify as `RunStart` (payload present, run-start
identifier, control topic)?  The trace-identifier branch cannot apply
since a payload has one identifier. -/
def isRunStartMsg (env : Env) (m : Message) : Bool :=
  match m.payload with
  | none => false
  | some p => p.tag == Tag.runStartTag && m.topic == env.controlTopic

/-- Spec-side definition (§8, written from the spec's words, for
comparison with the code): the number of `RunStart` messages since the
most recent `RunStop` (or since the beginning), starting from a running
count `n`; `RunStop` resets the count to zero. -/
def startsFrom (env : Env) (n : Nat) (m : Message) : Nat :=
  match m.payload with
  | none => n
  | some p =>
    if p.tag = Tag.traceTag then n
    else if m.topic = env.controlTopic then
      if p.tag = Tag.runStartTag then n + 1
      else if p.tag = Tag.runStopTag then 0
      else n
    else n

/-- Spec-side definition (§8): the `RunStart`-before-`RunStop` balance
since the last close, over a whole input sequence. -/
def startsSinceLastStop (env : Env) (steps : List Step) : Nat :=
  steps.foldl (fun n s => startsFrom env n s.msg) 0

/-! ### Concrete fixtures used by witnesses and counterexamples -/

/-- A concrete configuration: control topic `"c"`, two digitizers. -/
def env0 : Env := { controlTopic := "c", digitizerCount := 2 }

/-- Sink oracle where create and push both succeed. -/
def sbOk : SinkBehavior := { createOk := true, pushOk := true }

/-- Sink oracle where `TraceFile::create` fails. -/
def sbCreateFail : SinkBehavior := { createOk := false, pushOk := true }

/-- Sink oracle where `TraceFile::push` fails. -/
def sbPushFail : SinkBehavior := { createOk := true, pushOk := false }

/-- A run-start message on the control topic with a convertible timestamp. -/
def startMsg : Message :=
  { topic := "c", payload := some ⟨Tag.runStartTag, true⟩
    timestamp := Timestamp.createTime 1000, offset := 1 }

/-- A run-start message on the control topic whose Kafka timestamp is
`NotAvailable`, so name derivation fails. -/
def startMsgBadTs : Message :=
  { topic := "c", payload := some ⟨Tag.runStartTag, true⟩
    timestamp := Timestamp.notAvailable, offset := 1 }

/-- A run-stop message on the control topic. -/
def stopMsg : Message :=
  { topic := "c", payload := some ⟨Tag.runStopTag, true⟩
    timestamp := Timestamp.createTime 9, offset := 3 }

/-- A well-formed trace message on the trace topic `"t"`. -/
def traceMsg : Message :=
  { topic := "t", payload := some ⟨Tag.traceTag, true⟩
    timestamp := Timestamp.createTime 2000, offset := 2 }

/-- A payload with an unrecognized identifier arriving on the control topic. -/
def unrecogMsg : Message :=
  { topic := "c", payload := some ⟨Tag.otherTag, true⟩
    timestamp := Timestamp.createTime 5, offset := 7 }

/-- A message with no payload bytes. -/
def noPayloadMsg : Message :=
  { topic := "z", payload := none, timestamp := Timestamp.notAvailable, offset := 11 }

/-- An open session handle created from `startMsg`'s timestamp. -/
def file0 : TraceFile := { filename := ⟨⟨1000⟩⟩, digitizerCount := 2 }

/-! ### Claims about single loop iterations -/

/-- C6: when a session is open and a trace frame's push to the sink fails,
the iteration emits the received-trace counter then the file-write failure
counter, keeps the same session handle, stays non-fatal, and makes exactly
one push attempt (also exactly one when the push succeeds — no retry). -/
theorem C6_trace_write_failure_kept_session (env : Env) (sb : SinkBehavior)
    (f : TraceFile) (m : Message) (p : Payload)
    (hp : m.payload = some p) (ht : p.tag = Tag.traceTag) (hok : p.parseOk = true) :
    (processMessage env sb (some f) m).appendAttempts = 1 ∧
    (sb.pushOk = false →
      (processMessage env sb (some f) m).events =
        [Event.messagesReceived .trace, Event.failures .fileWriteFailed,
         Event.commit m.offset] ∧
      (processMessage env sb (some f) m).file = some f ∧
      (processMessage env sb (some f) m).fatal = false) := by
  cases hb : sb.pushOk <;> simp [processMessage, hp, ht, hok, hb]

/-- C6 witness: concrete failed push of `traceMsg` into an open session. -/
theorem C6_trace_write_failure_kept_session_witness :
    (processMessage env0 sbPushFail (some file0) traceMsg).appendAttempts = 1 ∧
    (sbPushFail.pushOk = false →
      (processMessage env0 sbPushFail (some file0) traceMsg).events =
        [Event.messagesReceived .trace, Event.failures .fileWriteFailed,
         Event.commit traceMsg.offset] ∧
      (processMessage env0 sbPushFail (some file0) traceMsg).file = some file0 ∧
      (processMessage env0 sbPushFail (some file0) traceMsg).fatal = false) :=
  C6_trace_write_failure_kept_session env0 sbPushFail file0 traceMsg
    ⟨Tag.traceTag, true⟩ rfl rfl rfl

/-- C9: a successfully parsed trace frame arriving while no session is
open leaves the state absent, makes no push attempt, and increments no
failure counter (the received-trace counter is still incremented). -/
theorem C9_trace_without_session_dropped (env : Env) (sb : SinkBehavior)
    (m : Message) (p : Payload)
    (hp : m.payload = some p) (ht : p.tag = Tag.traceTag) (hok : p.parseOk = true) :
    (processMessage env sb none m).file = none ∧
    (processMessage env sb none m).appendAttempts = 0 ∧
    (processMessage env sb none m).events.filter Event.isFailure = [] := by
  simp [processMessage, hp, ht, hok, Event.isFailure]

/-- C9 witness: concrete `traceMsg` processed with no open session. -/
theorem C9_trace_without_session_dropped_witness :
    (processMessage env0 sbOk none traceMsg).file = none ∧
    (processMessage env0 sbOk none traceMsg).appendAttempts = 0 ∧
    (processMessage env0 sbOk none traceMsg).events.filter Event.isFailure = [] :=
  C9_trace_without_session_dropped env0 sbOk traceMsg ⟨Tag.traceTag, true⟩ rfl rfl rfl

/-- C10: a message with no payload bytes is skipped: the session state is
returned unchanged, no counter of any kind is incremented, no push is
attempted, yet the offset is still committed. -/
theorem C10_no_payload_skipped (env : Env) (sb : SinkBehavior)
    (file : Option TraceFile) (m : Message) (hp : m.payload = none) :
    processMessage env sb file m =
      { file := file, events := [Event.commit m.offset]
        fatal := false, appendAttempts := 0 } := by
  simp [processMessage, hp]

/-- C10 witness: concrete payload-less message with an open session. -/
theorem C10_no_payload_skipped_witness :
    processMessage env0 sbOk (some file0) noPayloadMsg =
      { file := some file0, events := [Event.commit 11]
        fatal := false, appendAttempts := 0 } :=
  C10_no_payload_skipped env0 sbOk (some file0) noPayloadMsg rfl

/-- C8: the trace-identifier check precedes the control-topic comparison:
a trace-tagged payload is classified the same way whatever topic it
arrived on, and a trace-tagged payload that fails to parse is counted as
a decode failure even on the control topic itself. -/
theorem C8_trace_tag_checked_before_topic (env : Env) (sb : SinkBehavior)
    (file : Option TraceFile) (t1 t2 : String) (p : Payload) (ts : Timestamp)
    (o : Int) (ht : p.tag = Tag.traceTag) :
    (∀ topic, classify env topic p =
      if p.parseOk then Classified.traceFrame else Classified.decodeFailed) ∧
    processMessage env sb file
        { topic := t1, payload := some p, timestamp := ts, offset := o } =
      processMessage env sb file
        { topic := t2, payload := some p, timestamp := ts, offset := o } ∧
    (p.parseOk = false →
      Event.failures .unableToDecodeMessage ∈
        (processMessage env sb file
          { topic := env.controlTopic, payload := some p, timestamp := ts
            offset := o }).events) := by
  cases hpk : p.parseOk <;> rcases file with _ | f <;>
    simp [classify, processMessage, ht, hpk]

/-- C8 witness: a malformed trace-tagged payload is processed identically
on an arbitrary topic and on the control topic. -/
theorem C8_trace_tag_checked_before_topic_witness :
    processMessage env0 sbOk none
        { topic := "x", payload := some ⟨Tag.traceTag, false⟩
          timestamp := Timestamp.createTime 4, offset := 9 } =
      processMessage env0 sbOk none
        { topic := "c", payload := some ⟨Tag.traceTag, false⟩
          timestamp := Timestamp.createTime 4, offset := 9 } :=
  (C8_trace_tag_checked_before_topic env0 sbOk none "x" "c" ⟨Tag.traceTag, false⟩
    (Timestamp.createTime 4) 9 rfl).2.1

/-- C7: `generate_filename` is the composition of the
millisecond conversion and the calendar-instant conversion: it returns the
name built from the instant when both succeed, and it fails exactly when
the timestamp is absent (no millisecond value) or unconvertible (instant
out of range); on such a failure the run-start branch emits a failure
counter, leaves the state with no session, and stays non-fatal. -/
theorem C7_generate_filename_contract (ts : Timestamp) :
    (∀ ms dt, ts.to_millis = some ms → fromTimestampMillis ms = some dt →
      generate_filename ts = Except.ok ⟨dt⟩) ∧
    (isOk (generate_filename ts) = false ↔
      (ts.to_millis = none ∨
        ∃ ms, ts.to_millis = some ms ∧ fromTimestampMillis ms = none)) ∧
    (∀ (env : Env) (sb : SinkBehavior) (m : Message) (p : Payload),
      m.payload = some p → p.tag = Tag.runStartTag → m.topic = env.controlTopic →
      isOk (generate_filename m.timestamp) = false →
      processMessage env sb none m =
        { file := none
          events := [Event.failures .fileWriteFailed, Event.commit m.offset]
          fatal := false, appendAttempts := 0 }) := by
  refine ⟨?_, ?_, ?_⟩
  · intro ms dt hm hf
    simp [generate_filename, hm, hf]
  · rcases hm : ts.to_millis with _ | ms
    · simp [generate_filename, hm, isOk]
    · rcases hf : fromTimestampMillis ms with _ | dt <;>
        simp [generate_filename, hm, hf, isOk]
  · intro env sb m p hp ht htop hbad
    rcases hg : generate_filename m.timestamp with e | fn
    · simp [processMessage, hp, ht, htop, hg]
    · rw [hg] at hbad
      simp [isOk] at hbad

/-- C7 witness: a concrete convertible timestamp yields the derived name,
and a concrete run-start with timestamp `NotAvailable` takes the reported,
non-fatal failure path. -/
theorem C7_generate_filename_contract_witness :
    generate_filename (Timestamp.createTime 1000) = Except.ok ⟨⟨1000⟩⟩ ∧
    processMessage env0 sbOk none startMsgBadTs =
      { file := none
        events := [Event.failures .fileWriteFailed, Event.commit startMsgBadTs.offset]
        fatal := false, appendAttempts := 0 } :=
  ⟨(C7_generate_filename_contract (Timestamp.createTime 1000)).1 1000 ⟨1000⟩
      (by decide) (by decide),
   (C7_generate_filename_contract Timestamp.notAvailable).2.2 env0 sbOk
      startMsgBadTs ⟨Tag.runStartTag, true⟩ rfl rfl rfl (by decide)⟩

/-- C1 counterexample: with no session open, a run-start whose name
derives fine but whose `TraceFile::create` fails does NOT emit a failure
counter and does NOT let the loop continue: the iteration is fatal (the
`?` propagates the error out of `run`), its offset is never committed,
and a subsequent trace message is never consumed (the loop's event trace
stays empty). -/
theorem C1_counterexample :
    (processMessage env0 sbCreateFail none startMsg).fatal = true ∧
    metricEvents (processMessage env0 sbCreateFail none startMsg).events = [] ∧
    (runLoop env0 initState [⟨startMsg, sbCreateFail⟩, ⟨traceMsg, sbOk⟩]).events = [] := by
  decide

/-- C1 amended: with no session open and a derivable artifact name, a
failure of `TraceFile::create` is fatal: the iteration emits no counter at
all, commits nothing, leaves no session, and the error propagates out of
`run`, ending the consume loop.  (Only artifact-name derivation failure is
the reported, non-fatal case.) -/
theorem C1_create_failure_is_fatal (env : Env) (sb : SinkBehavior)
    (m : Message) (p : Payload)
    (hp : m.payload = some p) (ht : p.tag = Tag.runStartTag)
    (htop : m.topic = env.controlTopic)
    (hname : isOk (generate_filename m.timestamp) = true)
    (hc : sb.createOk = false) :
    processMessage env sb none m =
      { file := none, events := [], fatal := true, appendAttempts := 0 } := by
  rcases hg : generate_filename m.timestamp with e | fn
  · rw [hg] at hname
    simp [isOk] at hname
  · simp [processMessage, hp, ht, htop, hg, hc]

/-- C1 amended witness: the concrete fatal create failure. -/
theorem C1_create_failure_is_fatal_witness :
    processMessage env0 sbCreateFail none startMsg =
      { file := none, events := [], fatal := true, appendAttempts := 0 } :=
  C1_create_failure_is_fatal env0 sbCreateFail startMsg ⟨Tag.runStartTag, true⟩
    rfl rfl rfl (by decide) rfl

/-- C4 counterexample: a payload with an unrecognized identifier on the
control topic does NOT increment the unknown-message counter (nor any
other): the iteration's only event is the offset commit. -/
theorem C4_counterexample :
    ¬ Event.messagesReceived MessageKind.unknown ∈
        (processMessage env0 sbOk none unrecogMsg).events ∧
    metricEvents (processMessage env0 sbOk none unrecogMsg).events = [] := by
  decide

/-- C4 amended: a payload on the control topic whose identifier is
neither run-start, run-stop, nor trace is only logged: no counter of any
kind is incremented (in particular neither the unknown-message nor the
decode-failure counter), the session state is unchanged, and the offset
is still committed. -/
theorem C4_unrecognized_on_control_only_logged (env : Env) (sb : SinkBehavior)
    (file : Option TraceFile) (m : Message) (p : Payload)
    (hp : m.payload = some p) (htop : m.topic = env.controlTopic)
    (ht : p.tag = Tag.otherTag) :
    processMessage env sb file m =
      { file := file, events := [Event.commit m.offset]
        fatal := false, appendAttempts := 0 } := by
  simp [processMessage, hp, htop, ht]

/-- C4 amended witness: the concrete unrecognized control-topic payload. -/
theorem C4_unrecognized_on_control_only_logged_witness :
    processMessage env0 sbOk none unrecogMsg =
      { file := none, events := [Event.commit 7]
        fatal := false, appendAttempts := 0 } :=
  C4_unrecognized_on_control_only_logged env0 sbOk none unrecogMsg
    ⟨Tag.otherTag, true⟩ rfl rfl rfl

/-- C5 counterexample: a received run-start whose `TraceFile::create`
fails never has its offset committed — the commit is not unconditional. -/
theorem C5_counterexample :
    commitEvents (processMessage env0 sbCreateFail none startMsg).events = [] := by
  decide

/-- C5 amended: on every non-fatal iteration the events are exactly the
counter increments followed, last, by the single commit of the message's
offset — so the commit happens after action and metric reporting and
regardless of action success; on the one fatal path (`TraceFile::create`
failure) no commit happens at all. -/
theorem C5_commit_last_unless_fatal (env : Env) (sb : SinkBehavior)
    (file : Option TraceFile) (m : Message) :
    ((processMessage env sb file m).fatal = false →
      (processMessage env sb file m).events =
        metricEvents (processMessage env sb file m).events ++ [Event.commit m.offset]) ∧
    ((processMessage env sb file m).fatal = true →
      commitEvents (processMessage env sb file m).events = []) := by
  rcases hp : m.payload with _ | p
  · simp [processMessage, hp, metricEvents, commitEvents, Event.isMetric]
  · by_cases ht : p.tag = Tag.traceTag
    · cases hpk : p.parseOk <;> rcases file with _ | f <;> cases hpush : sb.pushOk <;>
        simp [processMessage, hp, ht, hpk, hpush, metricEvents, commitEvents,
          Event.isMetric]
    · by_cases htp : m.topic = env.controlTopic
      · by_cases hs : p.tag = Tag.runStartTag
        · rcases file with _ | f
          · rcases hg : generate_filename m.timestamp with e | fn <;>
              cases hc : sb.createOk <;>
              simp [processMessage, hp, ht, htp, hs, hg, hc, metricEvents,
                commitEvents, Event.isMetric, Event.isCommit]
          · simp [processMessage, hp, ht, htp, hs, metricEvents, commitEvents,
              Event.isMetric]
        · by_cases hstop : p.tag = Tag.runStopTag <;>
            simp [processMessage, hp, ht, htp, hs, hstop, metricEvents,
              commitEvents, Event.isMetric]
      · simp [processMessage, hp, ht, htp, metricEvents, commitEvents,
          Event.isMetric]

/-- C5 amended witness: a concrete failed push still ends with its commit,
and the concrete fatal create failure commits nothing. -/
theorem C5_commit_last_unless_fatal_witness :
    (processMessage env0 sbPushFail (some file0) traceMsg).events =
      metricEvents (processMessage env0 sbPushFail (some file0) traceMsg).events ++
        [Event.commit traceMsg.offset] ∧
    commitEvents (processMessage env0 sbCreateFail none startMsg).events = [] :=
  ⟨(C5_commit_last_unless_fatal env0 sbPushFail (some file0) traceMsg).1 (by decide),
   (C5_commit_last_unless_fatal env0 sbCreateFail none startMsg).2 (by decide)⟩

/-- C3 counterexample: a classified `RunStop` with a session open reports
zero metric events, and a parsed trace frame whose push fails reports
two — so "exactly one metric event per classified message" fails in both
directions. -/
theorem C3_counterexample :
    (metricEvents (processMessage env0 sbOk (some file0) stopMsg).events).length = 0 ∧
    (metricEvents (processMessage env0 sbPushFail (some file0) traceMsg).events).length = 2 := by
  decide

/-- C3 amended: the exact metric events of every branch: a parsed trace
frame counts one received trace (plus one file-write failure if its push
fails); a malformed trace-tagged payload counts one decode failure; a
run-start whose name derivation fails counts one file-write failure; a
message on an unexpected topic counts one received unknown; the
successful run-start, run-start-while-open, run-stop and
unrecognized-tag-on-control-topic branches count nothing. -/
theorem C3_metric_events_per_branch (env : Env) (sb : SinkBehavior)
    (file : Option TraceFile) (m : Message) (p : Payload) (f : TraceFile)
    (hp : m.payload = some p) :
    (p.tag = Tag.traceTag → p.parseOk = true → file = none →
      metricEvents (processMessage env sb file m).events =
        [Event.messagesReceived .trace]) ∧
    (p.tag = Tag.traceTag → p.parseOk = true → file = some f → sb.pushOk = true →
      metricEvents (processMessage env sb file m).events =
        [Event.messagesReceived .trace]) ∧
    (p.tag = Tag.traceTag → p.parseOk = true → file = some f → sb.pushOk = false →
      metricEvents (processMessage env sb file m).events =
        [Event.messagesReceived .trace, Event.failures .fileWriteFailed]) ∧
    (p.tag = Tag.traceTag → p.parseOk = false →
      metricEvents (processMessage env sb file m).events =
        [Event.failures .unableToDecodeMessage]) ∧
    (p.tag = Tag.runStartTag → m.topic = env.controlTopic → file = none →
      isOk (generate_filename m.timestamp) = true → sb.createOk = true →
      metricEvents (processMessage env sb file m).events = []) ∧
    (p.tag = Tag.runStartTag → m.topic = env.controlTopic → file = none →
      isOk (generate_filename m.timestamp) = false →
      metricEvents (processMessage env sb file m).events =
        [Event.failures .fileWriteFailed]) ∧
    (p.tag = Tag.runStartTag → m.topic = env.controlTopic → file = some f →
      metricEvents (processMessage env sb file m).events = []) ∧
    (p.tag = Tag.runStopTag → m.topic = env.controlTopic →
      metricEvents (processMessage env sb file m).events = []) ∧
    (p.tag = Tag.otherTag → m.topic = env.controlTopic →
      metricEvents (processMessage env sb file m).events = []) ∧
    (p.tag ≠ Tag.traceTag → m.topic ≠ env.controlTopic →
      metricEvents (processMessage env sb file m).events =
        [Event.messagesReceived .unknown]) := by
  refine ⟨?_, ?_, ?_, ?_, ?_, ?_, ?_, ?_, ?_, ?_⟩
  · intro ht hpk hf; subst hf
    simp [processMessage, hp, ht, hpk, metricEvents, Event.isMetric]
  · intro ht hpk hf hpush; subst hf
    simp [processMessage, hp, ht, hpk, hpush, metricEvents, Event.isMetric]
  · intro ht hpk hf hpush; subst hf
    simp [processMessage, hp, ht, hpk, hpush, metricEvents, Event.isMetric]
  · intro ht hpk
    simp [processMessage, hp, ht, hpk, metricEvents, Event.isMetric]
  · intro ht htop hf hgen hc; subst hf
    rcases hg : generate_filename m.timestamp with e | fn
    · rw [hg] at hgen; simp [isOk] at hgen
    · simp [processMessage, hp, ht, htop, hg, hc, metricEvents, Event.isMetric]
  · intro ht htop hf hgen; subst hf
    rcases hg : generate_filename m.timestamp with e | fn
    · simp [processMessage, hp, ht, htop, hg, metricEvents, Event.isMetric]
    · rw [hg] at hgen; simp [isOk] at hgen
  · intro ht htop hf; subst hf
    simp [processMessage, hp, ht, htop, metricEvents, Event.isMetric]
  · intro ht htop
    simp [processMessage, hp, ht, htop, metricEvents, Event.isMetric]
  · intro ht htop
    simp [processMessage, hp, ht, htop, metricEvents, Event.isMetric]
  · intro ht htop
    simp [processMessage, hp, ht, htop, metricEvents, Event.isMetric]

/-- C3 amended witness: concrete zero-metric run-stop branch and
one-metric trace branch. -/
theorem C3_metric_events_per_branch_witness :
    metricEvents (processMessage env0 sbOk none stopMsg).events = [] ∧
    metricEvents (processMessage env0 sbOk none traceMsg).events =
      [Event.messagesReceived .trace] :=
  ⟨(C3_metric_events_per_branch env0 sbOk none stopMsg ⟨Tag.runStopTag, true⟩
      file0 rfl).2.2.2.2.2.2.2.1 rfl rfl,
   (C3_metric_events_per_branch env0 sbOk none traceMsg ⟨Tag.traceTag, true⟩
      file0 rfl).1 rfl rfl rfl⟩

/-- Single-step preservation for the session/balance invariant: if the
open-session state matches positivity of the running start count, and any
run-start in this message has a derivable name and a succeeding create,
then one iteration is non-fatal and re-establishes the invariant for the
updated count. -/
theorem processMessage_preserves_balance (env : Env) (sb : SinkBehavior)
    (file : Option TraceFile) (m : Message) (n : Nat)
    (hinv : file.isSome = true ↔ 0 < n)
    (hgood : isRunStartMsg env m = true →
      isOk (generate_filename m.timestamp) = true ∧ sb.createOk = true) :
    (processMessage env sb file m).fatal = false ∧
    ((processMessage env sb file m).file.isSome = true ↔ 0 < startsFrom env n m) := by
  rcases hp : m.payload with _ | p
  · constructor
    · simp [processMessage, hp]
    · simpa [processMessage, hp, startsFrom] using hinv
  · by_cases ht : p.tag = Tag.traceTag
    · constructor
      · cases hpk : p.parseOk <;> rcases file with _ | f <;> cases hpush : sb.pushOk <;>
          simp [processMessage, hp, ht, hpk, hpush]
      · cases hpk : p.parseOk <;> rcases file with _ | f <;> cases hpush : sb.pushOk <;>
          simpa [processMessage, hp, ht, hpk, hpush, startsFrom] using hinv
    · by_cases htp : m.topic = env.controlTopic
      · by_cases hs : p.tag = Tag.runStartTag
        · rcases file with _ | f
          · have hr : isRunStartMsg env m = true := by
              simp [isRunStartMsg, hp, hs, htp]
            obtain ⟨hgen, hc⟩ := hgood hr
            rcases hg : generate_filename m.timestamp with e | fn
            · rw [hg] at hgen
              simp [isOk] at hgen
            · constructor
              · simp [processMessage, hp, ht, htp, hs, hg, hc]
              · simp [processMessage, hp, ht, htp, hs, hg, hc, startsFrom,
                  Nat.succ_pos]
          · constructor
            · simp [processMessage, hp, ht, htp, hs]
            · simp [processMessage, hp, ht, htp, hs, startsFrom, Nat.succ_pos]
        · by_cases hstop : p.tag = Tag.runStopTag
          · constructor
            · simp [processMessage, hp, ht, htp, hs, hstop]
            · simp [processMessage, hp, ht, htp, hs, hstop, startsFrom]
          · constructor
            · simp [processMessage, hp, ht, htp, hs, hstop]
            · simpa [processMessage, hp, ht, htp, hs, hstop, startsFrom] using hinv
      · constructor
        · simp [processMessage, hp, ht, htp]
        · simpa [processMessage, hp, ht, htp, startsFrom] using hinv

/-- Loop-level preservation: folding the consume loop from any state
satisfying the invariant, over steps whose run-starts all have derivable
names and succeeding creates, stays non-fatal and keeps the open-session
state equal to positivity of the start-since-last-stop count. -/
theorem runLoop_balance (env : Env) (steps : List Step) :
    ∀ (st : LoopState) (n : Nat), st.fatal = false →
    (st.file.isSome = true ↔ 0 < n) →
    (∀ s ∈ steps, isRunStartMsg env s.msg = true →
      isOk (generate_filename s.msg.timestamp) = true ∧ s.sink.createOk = true) →
    (runLoop env st steps).fatal = false ∧
    ((runLoop env st steps).file.isSome = true ↔
      0 < steps.foldl (fun k s => startsFrom env k s.msg) n) := by
  induction steps with
  | nil =>
    intro st n hf hinv _
    exact ⟨by simpa [runLoop] using hf, by simpa [runLoop] using hinv⟩
  | cons s rest ih =>
    intro st n hf hinv hgood
    have hstep := processMessage_preserves_balance env s.sink st.file s.msg n hinv
      (hgood s (by simp))
    have hrec := ih
      { file := (processMessage env s.sink st.file s.msg).file
        events := st.events ++ (processMessage env s.sink st.file s.msg).events
        fatal := (processMessage env s.sink st.file s.msg).fatal }
      (startsFrom env n s.msg) hstep.1 hstep.2
      (fun s2 hs2 => hgood s2 (by simp [hs2]))
    simpa [runLoop, hf] using hrec

/-- C2 counterexample: one run-start whose timestamp is `NotAvailable`
makes the start-before-stop balance positive while the session stays
closed (name derivation failed), so the unconditional iff of the claim is
false. -/
theorem C2_counterexample :
    0 < startsSinceLastStop env0 [⟨startMsgBadTs, sbOk⟩] ∧
    (runLoop env0 initState [⟨startMsgBadTs, sbOk⟩]).file = none := by
  decide

/-- C2 amended: provided every run-start in the sequence has a derivable
artifact name and a succeeding `TraceFile::create`, the session is open
after processing exactly when the `RunStart`-before-`RunStop` balance
since the last close is positive; and unconditionally a run-start while a
session is open is a no-op: the very same handle is kept, nothing is
created or pushed, and only the commit is emitted. -/
theorem C2_session_open_iff_balance (env : Env) (steps : List Step)
    (hgood : ∀ s ∈ steps, isRunStartMsg env s.msg = true →
      isOk (generate_filename s.msg.timestamp) = true ∧ s.sink.createOk = true) :
    ((runLoop env initState steps).file.isSome = true ↔
      0 < startsSinceLastStop env steps) ∧
    (∀ (sb : SinkBehavior) (f : TraceFile) (m : Message) (p : Payload),
      m.payload = some p → p.tag = Tag.runStartTag → m.topic = env.controlTopic →
      processMessage env sb (some f) m =
        { file := some f, events := [Event.commit m.offset]
          fatal := false, appendAttempts := 0 }) := by
  constructor
  · exact (runLoop_balance env steps initState 0 rfl (by simp [initState]) hgood).2
  · intro sb f m p hp hs htop
    have ht : p.tag ≠ Tag.traceTag := by simp [hs]
    simp [processMessage, hp, ht, hs, htop]

/-- The spec's own test sequence: run-start, duplicate run-start, one
trace frame, run-stop (all creations succeeding). -/
def demoSteps : List Step :=
  [⟨startMsg, sbOk⟩, ⟨{ startMsg with offset := 4 }, sbOk⟩,
   ⟨traceMsg, sbOk⟩, ⟨stopMsg, sbOk⟩]

/-- C2 amended witness: the iff on the spec's own test sequence, and the
concrete no-op duplicate run-start against an open session. -/
theorem C2_session_open_iff_balance_witness :
    ((runLoop env0 initState demoSteps).file.isSome = true ↔
      0 < startsSinceLastStop env0 demoSteps) ∧
    processMessage env0 sbOk (some file0) startMsg =
      { file := some file0, events := [Event.commit 1]
        fatal := false, appendAttempts := 0 } :=
  ⟨(C2_session_open_iff_balance env0 demoSteps (by decide)).1,
   (C2_session_open_iff_balance env0 demoSteps (by decide)).2 sbOk file0 startMsg
     ⟨Tag.runStartTag, true⟩ rfl rfl rfl⟩
